import Mathlib

set_option maxHeartbeats 1000000
set_option maxRecDepth 8192

/-!
Shallow embedding of the OVERSIGHT dashboard's idempotent mutation client
(`src/oversight-frontend/app/dashboard/page.tsx`) and of the legacy home
page (`src/unnamed/part_000`).  Monetary values are modelled as rationals,
JavaScript's loose JSON values as `JSValue`, and the event handlers as pure
state transformers parameterised by the nondeterministic inputs they consume
(the generated UUID, the transport outcome, the refetched server lists).
-/

/- ## JavaScript value and numeric coercion model -/

/-- A JS number: a finite double (idealised as an exact rational), one of
the two infinities, or NaN. -/
inductive JSNum where
  | finite (q : ℚ)
  | posInf
  | negInf
  | nan
deriving DecidableEq

/-- Is the JS number finite? -/
def JSNum.isFinite : JSNum → Bool
  | .finite _ => true
  | _ => false

/-- A loose JSON field value.  `num` is a finite parsed number; `inf`
covers the infinities `JSON.parse` produces for overflowing number
literals (parsed JSON never contains NaN). -/
inductive JSValue where
  | undef
  | null
  | boolean (b : Bool)
  | num (q : ℚ)
  | inf (pos : Bool)
  | str (s : String)
deriving DecidableEq

def digitVal (c : Char) : ℕ := c.toNat - 48

def natOfDigits (ds : List Char) : ℕ :=
  ds.foldl (fun a c => 10 * a + digitVal c) 0

/-- Optional exponent part of a JS numeric literal: returns the decimal
exponent (0 when absent) and the unconsumed remainder. -/
def parseExpPart : List Char → ℤ × List Char
  | [] => (0, [])
  | c :: cs =>
    if c = 'e' ∨ c = 'E' then
      let signed : Bool × List Char :=
        match cs with
        | s :: cs2 => if s = '-' then (true, cs2) else if s = '+' then (false, cs2) else (false, cs)
        | [] => (false, [])
      let ds := signed.2.takeWhile Char.isDigit
      let rest := signed.2.dropWhile Char.isDigit
      if ds = [] then (0, c :: cs)
      else if signed.1 then (-(natOfDigits ds : ℤ), rest)
      else ((natOfDigits ds : ℤ), rest)
    else (0, c :: cs)

/-- The rational `± m × 10 ^ sc`, built with a single `mkRat` so that it
evaluates by kernel reduction. -/
def decToRat (sign : Bool) (m : ℕ) (sc : ℤ) : ℚ :=
  if 0 ≤ sc then
    let v : ℕ := m * 10 ^ sc.toNat
    if sign then mkRat (-(v : ℤ)) 1 else mkRat (v : ℤ) 1
  else
    if sign then mkRat (-(m : ℤ)) (10 ^ (-sc).toNat)
    else mkRat (m : ℤ) (10 ^ (-sc).toNat)

/-- Unsigned decimal literal at the head of the input, in the style of JS
`parseFloat`: digits, optional fraction, optional exponent; `none` when no
literal is present (NaN).  The mantissa is the concatenated digits and the
scale subtracts one per fraction digit. -/
def parseUnsigned (sign : Bool) (cs : List Char) : Option (ℚ × List Char) :=
  let ip := cs.takeWhile Char.isDigit
  let r1 := cs.dropWhile Char.isDigit
  match r1 with
  | '.' :: r2 =>
    let fp := r2.takeWhile Char.isDigit
    let r3 := r2.dropWhile Char.isDigit
    if ip = [] ∧ fp = [] then none
    else
      let e := parseExpPart r3
      some (decToRat sign (natOfDigits (ip ++ fp)) (e.1 - fp.length), e.2)
  | _ =>
    if ip = [] then none
    else
      let e := parseExpPart r1
      some (decToRat sign (natOfDigits ip) e.1, e.2)

def parseSigned (cs : List Char) : Option (ℚ × List Char) :=
  match cs with
  | '+' :: rest => parseUnsigned false rest
  | '-' :: rest => parseUnsigned true rest
  | _ => parseUnsigned false cs

/-- JS `parseFloat`: skip leading whitespace, parse the longest numeric
prefix; `none` models NaN. -/
def parseFloatQ (s : String) : Option ℚ :=
  (parseSigned (s.data.dropWhile Char.isWhitespace)).map (fun p => p.1)

/-- JS `String.prototype.trim`: drop whitespace from both ends. -/
def jsTrim (s : String) : String :=
  String.mk (((s.data.dropWhile Char.isWhitespace).reverse.dropWhile
    Char.isWhitespace).reverse)

/-- The smallest magnitude at which JS's decimal-to-double conversion
rounds to Infinity: the midpoint `2 ^ 1024 - 2 ^ 970` above the largest
finite double, which ties-to-even rounding sends to `2 ^ 1024`. -/
def overflowThreshold : ℚ := mkRat ((2 ^ 1024 - 2 ^ 970 : ℕ) : ℤ) 1

/-- Convert an exactly parsed decimal value to a JS number the way JS
converts it to a double: magnitudes at or beyond the overflow threshold
become the matching infinity; smaller values are kept exactly (finite
doubles idealised as exact rationals). -/
def doubleClamp (q : ℚ) : JSNum :=
  if overflowThreshold ≤ q then .posInf
  else if q ≤ mkRat (-((2 ^ 1024 - 2 ^ 970 : ℕ) : ℤ)) 1 then .negInf
  else .finite q

/-- JS `Number(string)`: the whole trimmed string must be numeric; the
empty trimmed string coerces to 0; the `Infinity` literals (with optional
sign) and overflowing decimal literals coerce to the infinities; anything
else is NaN. -/
def jsStringToNumber (s : String) : JSNum :=
  let t := jsTrim s
  if t = "" then .finite 0
  else if t = "Infinity" ∨ t = "+Infinity" then .posInf
  else if t = "-Infinity" then .negInf
  else
    match parseSigned t.data with
    | some (q, []) => doubleClamp q
    | _ => .nan

/-- JS `Number(x)` over loose JSON field values. -/
def jsToNumber : JSValue → JSNum
  | .undef => .nan
  | .null => .finite 0
  | .boolean b => .finite (if b then 1 else 0)
  | .num q => .finite q
  | .inf pos => if pos then .posInf else .negInf
  | .str s => jsStringToNumber s

/-- The dashboard's coercion pattern `Number(x) || 0`: NaN and 0 are falsy
and become 0; every other result, the infinities included, is kept. -/
def numOr0 (v : JSValue) : JSNum :=
  match jsToNumber v with
  | .nan => .finite 0
  | .finite q => .finite q
  | .posInf => .posInf
  | .negInf => .negInf

/-- JS `a || b` on an optional string: `none` (undefined) and the empty
string are falsy. -/
def jsOr (o : Option String) (d : String) : String :=
  match o with
  | some s => if s = "" then d else s
  | none => d

/-- Two-decimal rendering of a nonnegative count of cents. -/
def pad2 (n : ℕ) : String := if n < 10 then "0" ++ toString n else toString n

/-- JS `x.toFixed(2)`: round to the nearest hundredth, ties away from
minus infinity, and render with exactly two decimals.  The cent count is
`⌊100q + 1/2⌋`, written as the Euclidean quotient
`(200 num + den) / (2 den)` over the reduced fraction so that it evaluates
by kernel reduction. -/
def toFixed2 (q : ℚ) : String :=
  let n : ℤ := Int.ediv (200 * q.num + (q.den : ℤ)) (2 * (q.den : ℤ))
  if n < 0 then
    "-" ++ toString ((-n).toNat / 100) ++ "." ++ pad2 ((-n).toNat % 100)
  else
    toString (n.toNat / 100) ++ "." ++ pad2 (n.toNat % 100)

/-- JS `x.toFixed(2)` on a possibly non-finite number: the non-finite
values render as their `toString` names instead of crashing. -/
def jsNumToFixed2 : JSNum → String
  | .finite q => toFixed2 q
  | .posInf => "Infinity"
  | .negInf => "-Infinity"
  | .nan => "NaN"

/- ## Data model (dashboard `page.tsx`) -/

/-- Agent record as stored in dashboard state after safe coercion.  The
monetary fields hold whatever `Number(x) || 0` produced, so they can be
infinite. -/
structure Agent where
  id : String
  name : String
  wallet_address : String
  balance : JSNum
  daily_spent : JSNum
  daily_remaining : JSNum
  created_at : String
deriving DecidableEq

/-- Agent record as it arrives in the `GET /agents` JSON, monetary fields
still loose. -/
structure RawAgent where
  id : String
  name : String
  wallet_address : String
  balance : JSValue
  daily_spent : JSValue
  daily_remaining : JSValue
  created_at : String
deriving DecidableEq

/-- Transaction record as stored in dashboard state. -/
structure Transaction where
  transaction_id : String
  status : String
  vendor_paid : JSNum
  tax_collected : JSNum
  new_balance : JSNum
  detail : String
  timestamp : String
  idempotency_key : String
deriving DecidableEq

/-- Transaction record as it arrives in the `GET /transactions` JSON. -/
structure RawTx where
  transaction_id : String
  status : String
  vendor_paid : JSValue
  tax_collected : JSValue
  new_balance : JSValue
  detail : String
  timestamp : String
  idempotency_key : String
deriving DecidableEq

/-- `fetchAgents`' per-record safe mapping: spread plus `Number(x) || 0` on
the three monetary fields. -/
def safeAgent (a : RawAgent) : Agent :=
  { id := a.id, name := a.name, wallet_address := a.wallet_address,
    balance := numOr0 a.balance, daily_spent := numOr0 a.daily_spent,
    daily_remaining := numOr0 a.daily_remaining, created_at := a.created_at }

/-- `fetchTransactions`' per-record safe mapping. -/
def safeTx (t : RawTx) : Transaction :=
  { transaction_id := t.transaction_id, status := t.status,
    vendor_paid := numOr0 t.vendor_paid, tax_collected := numOr0 t.tax_collected,
    new_balance := numOr0 t.new_balance, detail := t.detail,
    timestamp := t.timestamp, idempotency_key := t.idempotency_key }

/-- The dashboard component's state hooks. -/
structure DashState where
  agents : List Agent
  transactions : List Transaction
  loading : Bool
  error : Option String
  success : Option String
  selectedAgent : String
  amount : String
  vendor : String
  processing : Bool
deriving DecidableEq

/- ## Request payloads and transport outcomes -/

/-- JSON body of `POST /process-payment`; `idempotency_key = none` means the
field is absent from the payload. -/
structure PaymentPayload where
  wallet_address : String
  amount : ℚ
  vendor : String
  idempotency_key : Option String
deriving DecidableEq

/-- JSON body of `POST /deposit`. -/
structure DepositPayload where
  wallet_address : String
  amount : ℚ
  idempotency_key : Option String
deriving DecidableEq

/-- Parsed JSON body of a mutation response. -/
structure RespBody where
  status : Option String
  vendor_paid : Option ℚ
  tax_collected : Option ℚ
  new_balance : Option ℚ
  detail : Option String
deriving DecidableEq

/-- Result of one `fetch` + `response.json()`: either the whole try block
threw before a body was decoded (network error, JSON error), or a response
with its `ok` flag, HTTP status and decoded body. -/
inductive FetchOutcome where
  | netError (msg : Option String)
  | response (ok : Bool) (httpStatus : ℕ) (body : RespBody)
deriving DecidableEq

/-- Does the outcome carry `ok` transport and a body whose `status` field is
`APPROVED`? -/
def isApprovedOutcome : FetchOutcome → Bool
  | .response ok _ body => ok && body.status == some "APPROVED"
  | .netError _ => false

/- ## Data fetching (`fetchAgents`, `fetchTransactions`, `loadData`) -/

/-- `fetchAgents`: on success replace the agent list with the safely coerced
records and clear the error; on failure set the error and empty the list.
`none` models a failed fetch (non-ok HTTP or thrown). -/
def fetchAgentsStep (s : DashState) (result : Option (List RawAgent)) : DashState :=
  match result with
  | some raws => { s with agents := raws.map safeAgent, error := none }
  | none => { s with error := some "Failed to load agents. Please refresh.", agents := [] }

/-- `fetchTransactions`: on success replace the list with safely coerced
records; on failure empty it. -/
def fetchTransactionsStep (s : DashState) (result : Option (List RawTx)) : DashState :=
  match result with
  | some raws => { s with transactions := raws.map safeTx }
  | none => { s with transactions := [] }

/-- `loadData`: toggle the loading flag around both fetches. -/
def loadData (s : DashState) (refA : Option (List RawAgent))
    (refT : Option (List RawTx)) : DashState :=
  let s0 := { s with loading := true }
  let s1 := fetchAgentsStep s0 refA
  let s2 := fetchTransactionsStep s1 refT
  { s2 with loading := false }

/- ## Payment processing (`handlePayment`) -/

/-- Outcome of the synchronous prefix of `handlePayment`: either it returned
early with no request, or it entered the try block with a built request. -/
inductive PayStart where
  | rejected (s : DashState)
  | inflight (s : DashState) (req : PaymentPayload)
deriving DecidableEq

/-- Validation, key generation and request construction of `handlePayment`,
up to the `fetch` call.  `uuid` is the value `crypto.randomUUID()` returned
in this invocation. -/
def handlePaymentStart (s : DashState) (uuid : String) : PayStart :=
  if s.selectedAgent = "" ∨ s.amount = "" ∨ s.vendor = "" then
    .rejected { s with error := some "Please fill in all fields" }
  else
    match parseFloatQ s.amount with
    | none => .rejected { s with error := some "Invalid amount" }
    | some amountNum =>
      if amountNum ≤ 0 then
        .rejected { s with error := some "Invalid amount" }
      else
        match s.agents.find? (fun a => a.id == s.selectedAgent) with
        | none => .rejected { s with error := some "Agent not found" }
        | some agent =>
          .inflight { s with processing := true, error := none, success := none }
            { wallet_address := agent.wallet_address, amount := amountNum,
              vendor := jsTrim s.vendor,
              idempotency_key := some ("web_" ++ uuid) }

/-- Success banner built in the `APPROVED` branch of `handlePayment`. -/
def approvedMsg (vp tc : ℚ) : String :=
  "✅ Payment approved! Vendor received $" ++ toFixed2 vp ++ ", Tax: $" ++ toFixed2 tc

/-- Response handling of `handlePayment` from the `fetch` on: the `ok`
check, the `status` dispatch, the catch clause, and the finally clause. -/
def handlePaymentFinish (s : DashState) (outcome : FetchOutcome)
    (refA : Option (List RawAgent)) (refT : Option (List RawTx)) : DashState :=
  let s1 :=
    match outcome with
    | .netError msg => { s with error := some (jsOr msg "Payment failed. Please try again.") }
    | .response ok httpStatus body =>
      if ok then
        if body.status = some "APPROVED" then
          loadData
            { s with
              success := some (approvedMsg (body.vendor_paid.getD 0) (body.tax_collected.getD 0)),
              amount := "", vendor := "" }
            refA refT
        else
          { s with error := some ("❌ Payment denied: " ++ body.detail.getD "undefined") }
      else
        { s with error := some (jsOr body.detail ("HTTP " ++ toString httpStatus)) }
  { s1 with processing := false }

/-- The whole `handlePayment` invocation as a state transformer, returning
the new state and the request sent, `none` when no HTTP request went out. -/
def handlePayment (s : DashState) (uuid : String) (outcome : FetchOutcome)
    (refA : Option (List RawAgent)) (refT : Option (List RawTx)) :
    DashState × Option PaymentPayload :=
  match handlePaymentStart s uuid with
  | .rejected s1 => (s1, none)
  | .inflight s1 req => (handlePaymentFinish s1 outcome refA refT, some req)

/- ## Deposit (`handleDeposit`) -/

/-- Outcome of the synchronous prefix of `handleDeposit`: silent return,
`alert(...)` with no request, or a built request with the parsed amount. -/
inductive DepStart where
  | noop
  | alerted (msg : String)
  | inflight (amount : ℚ) (req : DepositPayload)
deriving DecidableEq

/-- Validation and request construction of `handleDeposit`; `promptResult`
is what `prompt(...)` returned (`none` = cancelled). -/
def handleDepositStart (agents : List Agent) (agentId : String)
    (promptResult : Option String) (uuid : String) : DepStart :=
  match agents.find? (fun a => a.id == agentId) with
  | none => .noop
  | some agent =>
    match promptResult with
    | none => .noop
    | some dep =>
      if dep = "" then .noop
      else
        match parseFloatQ dep with
        | none => .alerted "Invalid amount"
        | some amt =>
          if amt ≤ 0 then .alerted "Invalid amount"
          else .inflight amt
            { wallet_address := agent.wallet_address, amount := amt,
              idempotency_key := some ("deposit_" ++ uuid) }

/-- Response handling of `handleDeposit`: once `response.ok` holds, success
is declared without consulting the body's `status` field. -/
def handleDepositFinish (s : DashState) (amt : ℚ) (outcome : FetchOutcome)
    (refA : Option (List RawAgent)) (refT : Option (List RawTx)) : DashState :=
  match outcome with
  | .netError msg => { s with error := some (jsOr msg "Deposit failed") }
  | .response ok _ body =>
    if ok then
      loadData
        { s with success := some ("💵 Deposited $" ++ toFixed2 amt ++ " successfully!") }
        refA refT
    else
      { s with error := some (jsOr body.detail "Deposit failed") }

/-- The whole `handleDeposit` invocation: new state, the `alert` message if
one was shown, and the request sent (if any). -/
def handleDeposit (s : DashState) (agentId : String) (promptResult : Option String)
    (uuid : String) (outcome : FetchOutcome) (refA : Option (List RawAgent))
    (refT : Option (List RawTx)) : DashState × Option String × Option DepositPayload :=
  match handleDepositStart s.agents agentId promptResult uuid with
  | .noop => (s, none, none)
  | .alerted m => (s, some m, none)
  | .inflight amt req => (handleDepositFinish s amt outcome refA refT, none, some req)

/- ## JSX disabled attributes of the two mutation controls -/

/-- The payment form's submit button carries `disabled={processing}`. -/
def paymentSubmitDisabled (processing : Bool) : Bool := processing

/-- The per-agent Deposit button carries no `disabled` attribute. -/
def depositButtonDisabled (_processing : Bool) : Bool := false

/- ## Legacy home page (`src/unnamed/part_000`) -/

/-- The legacy page's `spend` sends its payload without any
`idempotency_key` field. -/
def spendRequest (wallet : String) (amountToSpend : ℚ) : PaymentPayload :=
  { wallet_address := wallet, amount := amountToSpend, vendor := "AWS",
    idempotency_key := none }

/-- The legacy page's `deposit` always deposits 100, also with no
`idempotency_key` field. -/
def legacyDepositRequest (wallet : String) : DepositPayload :=
  { wallet_address := wallet, amount := 100, idempotency_key := none }

theorem strAppend_right_cancel (p a b : String) (h : p ++ a = p ++ b) : a = b := by
  have hd := congrArg String.data h
  simp only [String.data_append, List.append_right_inj] at hd
  exact String.ext hd

theorem webKey_ne_depositKey (u v : String) : "web_" ++ u ≠ "deposit_" ++ v := by
  intro h
  have h1 : ("web_" ++ u).data.head? = some 'w' := rfl
  rw [h] at h1
  have h2 : ("deposit_" ++ v).data.head? = some 'd' := rfl
  rw [h1] at h2
  simp at h2

theorem startInflight_spec (s : DashState) (u : String) (t : DashState)
    (r : PaymentPayload) (h : handlePaymentStart s u = .inflight t r) :
    t = { s with processing := true, error := none, success := none } ∧
    r.idempotency_key = some ("web_" ++ u) := by
  unfold handlePaymentStart at h
  split at h
  · simp at h
  · split at h
    · simp at h
    · split at h
      · simp at h
      · split at h
        · simp at h
        · cases h
          exact ⟨rfl, rfl⟩

theorem startRejected_spec (s : DashState) (u : String) (t : DashState)
    (h : handlePaymentStart s u = .rejected t) :
    ∃ m, t = { s with error := some m } := by
  unfold handlePaymentStart at h
  split at h
  · cases h; exact ⟨_, rfl⟩
  · split at h
    · cases h; exact ⟨_, rfl⟩
    · split at h
      · cases h; exact ⟨_, rfl⟩
      · split at h
        · cases h; exact ⟨_, rfl⟩
        · simp at h

theorem handlePayment_some (s : DashState) (u : String) (o : FetchOutcome)
    (rA : Option (List RawAgent)) (rT : Option (List RawTx)) (r : PaymentPayload)
    (h : (handlePayment s u o rA rT).2 = some r) :
    ∃ t, handlePaymentStart s u = .inflight t r ∧
      (handlePayment s u o rA rT).1 = handlePaymentFinish t o rA rT := by
  unfold handlePayment at h ⊢
  revert h
  cases hs : handlePaymentStart s u with
  | rejected t => intro h; simp at h
  | inflight t r2 =>
    intro h
    simp only [Option.some.injEq] at h
    subst h
    exact ⟨t, rfl, rfl⟩

theorem handlePayment_none (s : DashState) (u : String) (o : FetchOutcome)
    (rA : Option (List RawAgent)) (rT : Option (List RawTx))
    (h : (handlePayment s u o rA rT).2 = none) :
    handlePaymentStart s u = .rejected (handlePayment s u o rA rT).1 := by
  unfold handlePayment at h ⊢
  revert h
  cases hs : handlePaymentStart s u with
  | rejected t => intro h; rfl
  | inflight t r2 => intro h; simp at h

theorem finish_not_approved (s : DashState) (o : FetchOutcome)
    (rA : Option (List RawAgent)) (rT : Option (List RawTx))
    (h : isApprovedOutcome o = false) :
    ∃ m, handlePaymentFinish s o rA rT =
      { s with error := some m, processing := false } := by
  cases o with
  | netError msg => exact ⟨_, rfl⟩
  | response ok st body =>
    cases ok with
    | false => exact ⟨_, rfl⟩
    | true =>
      have hne : ¬ body.status = some "APPROVED" := by
        simpa [isApprovedOutcome] using h
      refine ⟨"❌ Payment denied: " ++ body.detail.getD "undefined", ?_⟩
      unfold handlePaymentFinish
      simp [hne]

theorem finish_approved (s : DashState) (st : ℕ) (body : RespBody)
    (rA : Option (List RawAgent)) (rT : Option (List RawTx))
    (h : body.status = some "APPROVED") :
    handlePaymentFinish s (.response true st body) rA rT =
      { loadData
          { s with
            success := some (approvedMsg (body.vendor_paid.getD 0) (body.tax_collected.getD 0)),
            amount := "", vendor := "" } rA rT
        with processing := false } := by
  unfold handlePaymentFinish
  simp [h]

theorem loadData_some_agents (s : DashState) (raws : List RawAgent)
    (rT : Option (List RawTx)) :
    (loadData s (some raws) rT).agents = raws.map safeAgent := by
  unfold loadData fetchAgentsStep fetchTransactionsStep
  cases rT <;> rfl

theorem loadData_form_fields (s : DashState) (rA : Option (List RawAgent))
    (rT : Option (List RawTx)) :
    (loadData s rA rT).amount = s.amount ∧ (loadData s rA rT).vendor = s.vendor ∧
    (loadData s rA rT).selectedAgent = s.selectedAgent ∧
    (loadData s rA rT).success = s.success ∧
    (loadData s rA rT).processing = s.processing := by
  unfold loadData fetchAgentsStep fetchTransactionsStep
  cases rA <;> cases rT <;> exact ⟨rfl, rfl, rfl, rfl, rfl⟩

theorem depositStart_inflight_spec (ags : List Agent) (aid : String)
    (pr : Option String) (u : String) (amt : ℚ) (r : DepositPayload)
    (h : handleDepositStart ags aid pr u = .inflight amt r) :
    r.idempotency_key = some ("deposit_" ++ u) := by
  unfold handleDepositStart at h
  split at h
  · simp at h
  · split at h
    · simp at h
    · split at h
      · simp at h
      · split at h
        · simp at h
        · split at h
          · simp at h
          · cases h; rfl

theorem handleDeposit_some (s : DashState) (aid : String) (pr : Option String)
    (u : String) (o : FetchOutcome) (rA : Option (List RawAgent))
    (rT : Option (List RawTx)) (r : DepositPayload)
    (h : (handleDeposit s aid pr u o rA rT).2.2 = some r) :
    ∃ amt, handleDepositStart s.agents aid pr u = .inflight amt r := by
  unfold handleDeposit at h
  cases hs : handleDepositStart s.agents aid pr u with
  | noop => rw [hs] at h; simp at h
  | alerted m => rw [hs] at h; simp at h
  | inflight amt r2 =>
    rw [hs] at h
    simp only [Option.some.injEq] at h
    subst h
    exact ⟨amt, rfl⟩

/- ## Concrete fixtures -/

/-- A stored agent with id `a1`, balance 100. -/
def agentA : Agent :=
  { id := "a1", name := "Alpha", wallet_address := "0xA",
    balance := .finite 100, daily_spent := .finite 0,
    daily_remaining := .finite 50, created_at := "t0" }

/-- A dashboard state with one agent and a filled payment form. -/
def baseState : DashState :=
  { agents := [agentA], transactions := [], loading := false, error := none,
    success := none, selectedAgent := "a1", amount := "50", vendor := "OpenAI",
    processing := false }

/-- A logical-denial response body. -/
def deniedBody : RespBody :=
  { status := some "DENIED", vendor_paid := none, tax_collected := none,
    new_balance := none, detail := some "OVER_LIMIT" }

/-- An approval response body with the spec scenario's amounts. -/
def approvedBody : RespBody :=
  { status := some "APPROVED", vendor_paid := some 45, tax_collected := some 5,
    new_balance := some 50, detail := some "ok" }

/-- The server's refetched agent record after the approved payment. -/
def refreshedRawA : RawAgent :=
  { id := "a1", name := "Alpha", wallet_address := "0xA", balance := .num 50,
    daily_spent := .num 50, daily_remaining := .num 0, created_at := "t0" }

/- ## C1 -/

/-- C1: the claim states that resubmitting the same logical request after a
transport failure with no confirmed response sends the original idempotency
key again.  On the code this is false: the first attempt (UUID `u-one`)
sends key `web_u-one`; after the transport failure the identical form is
resubmitted (UUID `u-two`) and the identical payload goes out under the
different key `web_u-two`. -/
theorem C1_counterexample :
    (handlePayment baseState "u-one" (.netError none) none none).2 =
      some { wallet_address := "0xA", amount := 50, vendor := "OpenAI",
             idempotency_key := some "web_u-one" } ∧
    (handlePayment (handlePayment baseState "u-one" (.netError none) none none).1
        "u-two" (.netError none) none none).2 =
      some { wallet_address := "0xA", amount := 50, vendor := "OpenAI",
             idempotency_key := some "web_u-two" } ∧
    ("web_u-one" : String) ≠ "web_u-two" := by decide

/-- C1 (amended): every invocation of the payment handler mints the key
`web_` followed by its own freshly generated UUID, so a resubmission after
a transport failure carries the new invocation's key, which differs from
the original whenever the generated UUIDs differ. -/
theorem C1_fresh_key_per_invocation (s1 s2 : DashState) (u1 u2 : String)
    (o1 o2 : FetchOutcome) (rA1 rA2 : Option (List RawAgent))
    (rT1 rT2 : Option (List RawTx)) (r1 r2 : PaymentPayload)
    (h1 : (handlePayment s1 u1 o1 rA1 rT1).2 = some r1)
    (h2 : (handlePayment s2 u2 o2 rA2 rT2).2 = some r2)
    (hu : u1 ≠ u2) :
    r1.idempotency_key = some ("web_" ++ u1) ∧
    r2.idempotency_key = some ("web_" ++ u2) ∧
    r1.idempotency_key ≠ r2.idempotency_key := by
  obtain ⟨t1, hs1, -⟩ := handlePayment_some _ _ _ _ _ _ h1
  obtain ⟨t2, hs2, -⟩ := handlePayment_some _ _ _ _ _ _ h2
  have k1 := (startInflight_spec _ _ _ _ hs1).2
  have k2 := (startInflight_spec _ _ _ _ hs2).2
  refine ⟨k1, k2, ?_⟩
  rw [k1, k2]
  intro hk
  exact hu (strAppend_right_cancel _ _ _ (Option.some_injective _ hk))

/-- C1 witness: the amended theorem at the concrete failed-then-resubmitted
scenario. -/
theorem C1_fresh_key_per_invocation_witness :
    ("u-one" : String) ≠ "u-two" ∧
    (({ wallet_address := "0xA", amount := 50, vendor := "OpenAI",
        idempotency_key := some "web_u-one" } : PaymentPayload).idempotency_key =
        some ("web_" ++ "u-one") ∧
     ({ wallet_address := "0xA", amount := 50, vendor := "OpenAI",
        idempotency_key := some "web_u-two" } : PaymentPayload).idempotency_key =
        some ("web_" ++ "u-two") ∧
     ({ wallet_address := "0xA", amount := 50, vendor := "OpenAI",
        idempotency_key := some "web_u-one" } : PaymentPayload).idempotency_key ≠
     ({ wallet_address := "0xA", amount := 50, vendor := "OpenAI",
        idempotency_key := some "web_u-two" } : PaymentPayload).idempotency_key) :=
  ⟨by decide,
    C1_fresh_key_per_invocation baseState baseState "u-one" "u-two"
      (.netError none) (.netError none) none none none none
      { wallet_address := "0xA", amount := 50, vendor := "OpenAI",
        idempotency_key := some "web_u-one" }
      { wallet_address := "0xA", amount := 50, vendor := "OpenAI",
        idempotency_key := some "web_u-two" }
      (by decide) (by decide) (by decide)⟩

/- ## C2 -/

/-- C2: two distinct user-initiated payment actions (modelled as handler
invocations whose generated UUIDs differ) never share an idempotency key;
moreover a payment key can never collide with a deposit key, the prefixes
`web_` and `deposit_` differing. -/
theorem C2_distinct_actions_distinct_keys (s1 s2 sd : DashState)
    (u1 u2 ud aid : String) (pr : Option String) (o1 o2 od : FetchOutcome)
    (rA1 rA2 rAd : Option (List RawAgent)) (rT1 rT2 rTd : Option (List RawTx))
    (r1 r2 : PaymentPayload) (rd : DepositPayload)
    (h1 : (handlePayment s1 u1 o1 rA1 rT1).2 = some r1)
    (h2 : (handlePayment s2 u2 o2 rA2 rT2).2 = some r2)
    (hd : (handleDeposit sd aid pr ud od rAd rTd).2.2 = some rd)
    (hu : u1 ≠ u2) :
    r1.idempotency_key ≠ r2.idempotency_key ∧
    r1.idempotency_key ≠ rd.idempotency_key := by
  obtain ⟨t1, hs1, -⟩ := handlePayment_some _ _ _ _ _ _ h1
  obtain ⟨t2, hs2, -⟩ := handlePayment_some _ _ _ _ _ _ h2
  obtain ⟨amt, hsd⟩ := handleDeposit_some _ _ _ _ _ _ _ _ hd
  have k1 := (startInflight_spec _ _ _ _ hs1).2
  have k2 := (startInflight_spec _ _ _ _ hs2).2
  have kd := depositStart_inflight_spec _ _ _ _ _ _ hsd
  constructor
  · rw [k1, k2]
    intro hk
    exact hu (strAppend_right_cancel _ _ _ (Option.some_injective _ hk))
  · rw [k1, kd]
    intro hk
    exact webKey_ne_depositKey _ _ (Option.some_injective _ hk)

/-- C2 witness: two concrete payment submissions with fresh UUIDs and a
concrete deposit, with pairwise distinct keys. -/
theorem C2_distinct_actions_distinct_keys_witness :
    ("u-one" : String) ≠ "u-two" ∧
    (({ wallet_address := "0xA", amount := 50, vendor := "OpenAI",
        idempotency_key := some "web_u-one" } : PaymentPayload).idempotency_key ≠
     ({ wallet_address := "0xA", amount := 50, vendor := "OpenAI",
        idempotency_key := some "web_u-two" } : PaymentPayload).idempotency_key ∧
     ({ wallet_address := "0xA", amount := 50, vendor := "OpenAI",
        idempotency_key := some "web_u-one" } : PaymentPayload).idempotency_key ≠
     ({ wallet_address := "0xA", amount := 100,
        idempotency_key := some "deposit_u-one" } : DepositPayload).idempotency_key) :=
  ⟨by decide,
    C2_distinct_actions_distinct_keys baseState baseState baseState
      "u-one" "u-two" "u-one" "a1" (some "100")
      (.netError none) (.netError none) (.netError none) none none none
      none none none
      { wallet_address := "0xA", amount := 50, vendor := "OpenAI",
        idempotency_key := some "web_u-one" }
      { wallet_address := "0xA", amount := 50, vendor := "OpenAI",
        idempotency_key := some "web_u-two" }
      { wallet_address := "0xA", amount := 100,
        idempotency_key := some "deposit_u-one" }
      (by decide) (by decide) (by decide) (by decide)⟩

/- ## C3 -/

/-- C3: the claim says every mutation's outcome is decided by the response
body's `status` field, never by the HTTP status alone.  The deposit handler
refutes it: an HTTP-ok response whose body says `DENIED` is surfaced as a
success banner, with no error set. -/
theorem C3_counterexample :
    (handleDeposit baseState "a1" (some "100") "dep-1"
        (.response true 200 deniedBody) (some [refreshedRawA]) (some [])).1.success =
      some "💵 Deposited $100.00 successfully!" ∧
    (handleDeposit baseState "a1" (some "100") "dep-1"
        (.response true 200 deniedBody) (some [refreshedRawA]) (some [])).1.error =
      none := by decide

/-- C3 (amended): the payment handler's outcome is decided by the body's
`status` field — an HTTP-ok response whose status is not `APPROVED` is
surfaced as the failure message built from the body's detail, with no
success banner; the deposit handler, by contrast, surfaces every HTTP-ok
response as a success regardless of the body's status field. -/
theorem C3_payment_status_decides (sPay : DashState) (u : String) (st : ℕ)
    (body : RespBody) (rA : Option (List RawAgent)) (rT : Option (List RawTx))
    (r : PaymentPayload)
    (hreq : (handlePayment sPay u (.response true st body) rA rT).2 = some r)
    (hst : body.status ≠ some "APPROVED") :
    ((handlePayment sPay u (.response true st body) rA rT).1.error =
      some ("❌ Payment denied: " ++ body.detail.getD "undefined") ∧
     (handlePayment sPay u (.response true st body) rA rT).1.success = none) ∧
    (∀ (sDep : DashState) (amt : ℚ) (st2 : ℕ) (body2 : RespBody)
       (rA2 : Option (List RawAgent)) (rT2 : Option (List RawTx)),
       (handleDepositFinish sDep amt (.response true st2 body2) rA2 rT2).success =
         some ("💵 Deposited $" ++ toFixed2 amt ++ " successfully!")) := by
  constructor
  · obtain ⟨t, hs, heq⟩ := handlePayment_some _ _ _ _ _ _ hreq
    have ht := (startInflight_spec _ _ _ _ hs).1
    rw [heq]
    unfold handlePaymentFinish
    subst ht
    simp [hst]
  · intro sDep amt st2 body2 rA2 rT2
    unfold handleDepositFinish
    have := (loadData_form_fields
      { sDep with
        success := some ("💵 Deposited $" ++ toFixed2 amt ++ " successfully!") }
      rA2 rT2).2.2.2.1
    simpa using this

/-- C3 witness: the amended theorem at the concrete denied payment. -/
theorem C3_payment_status_decides_witness :
    (handlePayment baseState "u3" (.response true 200 deniedBody) none none).2 =
      some { wallet_address := "0xA", amount := 50, vendor := "OpenAI",
             idempotency_key := some "web_u3" } ∧
    deniedBody.status ≠ some "APPROVED" ∧
    ((handlePayment baseState "u3" (.response true 200 deniedBody) none none).1.error =
       some ("❌ Payment denied: " ++ deniedBody.detail.getD "undefined") ∧
     (handlePayment baseState "u3" (.response true 200 deniedBody) none none).1.success =
       none) :=
  ⟨by decide, by decide,
    (C3_payment_status_decides baseState "u3" 200 deniedBody none none
      { wallet_address := "0xA", amount := 50, vendor := "OpenAI",
        idempotency_key := some "web_u3" }
      (by decide) (by decide)).1⟩

/- ## C4 -/

/-- C4: the claim says every submission whose amount parses to NaN or to a
nonpositive number is rejected with the message `Invalid amount`.  The
empty amount string refutes the message part: `parseFloat("")` is NaN, yet
the handler rejects it earlier with `Please fill in all fields` (still with
no HTTP request). -/
theorem C4_counterexample :
    parseFloatQ "" = none ∧
    (handlePayment { baseState with amount := "" } "u0" (.netError none)
        none none).1.error = some "Please fill in all fields" ∧
    (handlePayment { baseState with amount := "" } "u0" (.netError none)
        none none).2 = none := by decide

/-- C4 (amended): when the agent, amount and vendor fields are all
non-empty and the amount parses to NaN or to a nonpositive number, the
submission is rejected with exactly the error `Invalid amount` and no HTTP
request is sent; when a field is empty the submission is also rejected with
no request, but with the earlier message `Please fill in all fields`. -/
theorem C4_invalid_amount_rejected (s : DashState) (u : String)
    (o : FetchOutcome) (rA : Option (List RawAgent)) (rT : Option (List RawTx)) :
    (s.selectedAgent ≠ "" → s.amount ≠ "" → s.vendor ≠ "" →
      (parseFloatQ s.amount = none ∨ ∃ q, parseFloatQ s.amount = some q ∧ q ≤ 0) →
      handlePayment s u o rA rT = ({ s with error := some "Invalid amount" }, none)) ∧
    ((s.selectedAgent = "" ∨ s.amount = "" ∨ s.vendor = "") →
      handlePayment s u o rA rT =
        ({ s with error := some "Please fill in all fields" }, none)) := by
  constructor
  · intro hsel hamt hv hbad
    unfold handlePayment handlePaymentStart
    rcases hbad with hnan | ⟨q, hq, hq0⟩
    · simp [hsel, hamt, hv, hnan]
    · simp [hsel, hamt, hv, hq, hq0]
  · intro hempty
    unfold handlePayment handlePaymentStart
    rcases hempty with h | h | h <;> simp [h]

/-- C4 witness: the amended theorem at the spec scenario `amount = "-5"`. -/
theorem C4_invalid_amount_rejected_witness :
    ({ baseState with amount := "-5" } : DashState).selectedAgent ≠ "" ∧
    ({ baseState with amount := "-5" } : DashState).amount ≠ "" ∧
    ({ baseState with amount := "-5" } : DashState).vendor ≠ "" ∧
    (∃ q, parseFloatQ ({ baseState with amount := "-5" } : DashState).amount =
        some q ∧ q ≤ 0) ∧
    handlePayment { baseState with amount := "-5" } "u4" (.netError none) none none =
      ({ { baseState with amount := "-5" } with error := some "Invalid amount" }, none) :=
  ⟨by decide, by decide, by decide, ⟨mkRat (-5) 1, by decide, by decide⟩,
    (C4_invalid_amount_rejected { baseState with amount := "-5" } "u4"
        (.netError none) none none).1
      (by decide) (by decide) (by decide)
      (Or.inr ⟨mkRat (-5) 1, by decide, by decide⟩)⟩

/- ## C5 -/

/-- C6: the claim says every state-changing request the client sends
carries an `idempotency_key` field.  The legacy home page refutes it: both
its `spend` and its `deposit` payloads omit the field entirely. -/
theorem C6_counterexample :
    (spendRequest "0xW" 50).idempotency_key = none ∧
    (legacyDepositRequest "0xW").idempotency_key = none := by decide

/-- C6 (amended): every state-changing request sent by the dashboard
(`handlePayment`, `handleDeposit`) carries an `idempotency_key` field,
`web_<uuid>` resp. `deposit_<uuid>`; the legacy home page's `spend` and
`deposit` payloads omit the field. -/
theorem C6_dashboard_requests_carry_key :
    (∀ (s : DashState) (u : String) (o : FetchOutcome)
       (rA : Option (List RawAgent)) (rT : Option (List RawTx)) (r : PaymentPayload),
       (handlePayment s u o rA rT).2 = some r →
       r.idempotency_key = some ("web_" ++ u)) ∧
    (∀ (s : DashState) (aid : String) (pr : Option String) (u : String)
       (o : FetchOutcome) (rA : Option (List RawAgent)) (rT : Option (List RawTx))
       (r : DepositPayload),
       (handleDeposit s aid pr u o rA rT).2.2 = some r →
       r.idempotency_key = some ("deposit_" ++ u)) ∧
    (∀ (w : String) (amt : ℚ),
       (spendRequest w amt).idempotency_key = none ∧
       (legacyDepositRequest w).idempotency_key = none) := by
  refine ⟨?_, ?_, ?_⟩
  · intro s u o rA rT r h
    obtain ⟨t, hs, -⟩ := handlePayment_some _ _ _ _ _ _ h
    exact (startInflight_spec _ _ _ _ hs).2
  · intro s aid pr u o rA rT r h
    obtain ⟨amt, hs⟩ := handleDeposit_some _ _ _ _ _ _ _ _ h
    exact depositStart_inflight_spec _ _ _ _ _ _ hs
  · intro w amt
    exact ⟨rfl, rfl⟩

/-- C6 witness: the amended theorem at a concrete dashboard payment and
deposit. -/
theorem C6_dashboard_requests_carry_key_witness :
    (handlePayment baseState "u6" (.netError none) none none).2 =
      some { wallet_address := "0xA", amount := 50, vendor := "OpenAI",
             idempotency_key := some "web_u6" } ∧
    ({ wallet_address := "0xA", amount := 50, vendor := "OpenAI",
       idempotency_key := some "web_u6" } : PaymentPayload).idempotency_key =
      some ("web_" ++ "u6") :=
  ⟨by decide,
    C6_dashboard_requests_carry_key.1 baseState "u6" (.netError none) none none
      { wallet_address := "0xA", amount := 50, vendor := "OpenAI",
        idempotency_key := some "web_u6" }
      (by decide)⟩

/- ## C7 -/

/-- C7: on an `APPROVED` payment response carrying `vendor_paid` and
`tax_collected`, the success banner contains both amounts rendered by
`toFixed(2)`, and the agents list is replaced by the server's refetched
(safely coerced) records — the displayed balance is the server's value,
not a locally computed one. -/
theorem C7_approved_merges_server_values (s : DashState) (u : String)
    (st : ℕ) (body : RespBody) (raws : List RawAgent)
    (rT : Option (List RawTx)) (r : PaymentPayload) (vp tc : ℚ)
    (hreq : (handlePayment s u (.response true st body) (some raws) rT).2 = some r)
    (hst : body.status = some "APPROVED")
    (hvp : body.vendor_paid = some vp) (htc : body.tax_collected = some tc) :
    (handlePayment s u (.response true st body) (some raws) rT).1.success =
      some ("✅ Payment approved! Vendor received $" ++ toFixed2 vp ++
        ", Tax: $" ++ toFixed2 tc) ∧
    (handlePayment s u (.response true st body) (some raws) rT).1.agents =
      raws.map safeAgent := by
  obtain ⟨t, hs, heq⟩ := handlePayment_some _ _ _ _ _ _ hreq
  rw [heq, finish_approved t st body (some raws) rT hst]
  constructor
  · have hp := (loadData_form_fields
      { t with
        success := some (approvedMsg (body.vendor_paid.getD 0) (body.tax_collected.getD 0)),
        amount := "", vendor := "" }
      (some raws) rT).2.2.2.1
    simpa [approvedMsg, hvp, htc] using hp
  · simpa using loadData_some_agents
      { t with
        success := some (approvedMsg (body.vendor_paid.getD 0) (body.tax_collected.getD 0)),
        amount := "", vendor := "" }
      raws rT

/-- C7 witness: the spec scenario — amount 50, vendor OpenAI, balance 100,
approval with `vendor_paid = 45`, `tax_collected = 5`, refetched balance
50. -/
theorem C7_approved_merges_server_values_witness :
    (handlePayment baseState "u7" (.response true 200 approvedBody)
        (some [refreshedRawA]) (some [])).2 =
      some { wallet_address := "0xA", amount := 50, vendor := "OpenAI",
             idempotency_key := some "web_u7" } ∧
    approvedBody.status = some "APPROVED" ∧
    ((handlePayment baseState "u7" (.response true 200 approvedBody)
        (some [refreshedRawA]) (some [])).1.success =
      some ("✅ Payment approved! Vendor received $" ++ toFixed2 45 ++
        ", Tax: $" ++ toFixed2 5) ∧
     (handlePayment baseState "u7" (.response true 200 approvedBody)
        (some [refreshedRawA]) (some [])).1.agents = [refreshedRawA].map safeAgent) :=
  ⟨by decide, by decide,
    C7_approved_merges_server_values baseState "u7" 200 approvedBody
      [refreshedRawA] (some [])
      { wallet_address := "0xA", amount := 50, vendor := "OpenAI",
        idempotency_key := some "web_u7" }
      45 5 (by decide) (by decide) (by decide) (by decide)⟩

/- ## C8 -/

/-- C8: the claim says every monetary field arriving from the server is
coerced to a finite number before display, with missing or non-numeric
values replaced by 0.  The code's coercion is `Number(x) || 0`, which does
not guarantee finiteness: `Number("Infinity")` and overflow literals such
as `Number("1e999")` are `Infinity`, which is truthy, so `|| 0` keeps it —
the stored balance is infinite, neither finite nor 0, and the display
renders `Infinity`. -/
theorem C8_counterexample :
    numOr0 (.str "Infinity") = .posInf ∧
    numOr0 (.str "1e999") = .posInf ∧
    (numOr0 (.str "Infinity")).isFinite = false ∧
    numOr0 (.str "Infinity") ≠ .finite 0 ∧
    (safeAgent { id := "a1", name := "Alpha", wallet_address := "0xA",
                 balance := .str "Infinity", daily_spent := .num 0,
                 daily_remaining := .num 0, created_at := "t0" }).balance =
      .posInf ∧
    jsNumToFixed2 (numOr0 (.str "Infinity")) = "Infinity" := by decide

/-- C8 (amended): every monetary field goes through `Number(x) || 0`
before it is stored: present numeric fields keep their value, missing or
NaN-coercing values become 0, the mapping covers all six monetary fields
when the lists are (re)fetched, and display of any result is total — but
a value coercing to an infinity (the `Infinity` string literals, overflow
literals, or an overflowing JSON number) is kept as that infinity rather
than being replaced by 0, so the stored value is not guaranteed finite. -/
theorem C8_monetary_coercion (ra : RawAgent) (rt : RawTx) (v : JSValue)
    (q : ℚ) (hnan : jsToNumber v = .nan) :
    (safeAgent ra).balance = numOr0 ra.balance ∧
    (safeAgent ra).daily_spent = numOr0 ra.daily_spent ∧
    (safeAgent ra).daily_remaining = numOr0 ra.daily_remaining ∧
    (safeTx rt).vendor_paid = numOr0 rt.vendor_paid ∧
    (safeTx rt).tax_collected = numOr0 rt.tax_collected ∧
    (safeTx rt).new_balance = numOr0 rt.new_balance ∧
    numOr0 v = .finite 0 ∧ numOr0 .undef = .finite 0 ∧
    numOr0 .null = .finite 0 ∧ numOr0 (.num q) = .finite q ∧
    numOr0 (.str "Infinity") = .posInf ∧
    numOr0 (.str "1e999") = .posInf ∧
    numOr0 (.inf true) = .posInf ∧
    (∀ (s : DashState) (raws : List RawAgent) (rtxs : List RawTx),
      (loadData s (some raws) (some rtxs)).agents = raws.map safeAgent ∧
      (loadData s (some raws) (some rtxs)).transactions = rtxs.map safeTx) := by
  refine ⟨rfl, rfl, rfl, rfl, rfl, rfl, ?_, rfl, rfl, rfl,
    by decide, by decide, rfl, ?_⟩
  · simp [numOr0, hnan]
  · intro s raws rtxs
    refine ⟨loadData_some_agents s raws (some rtxs), ?_⟩
    unfold loadData fetchAgentsStep fetchTransactionsStep
    rfl

/-- C8 witness: a non-numeric string field coerces to 0, a numeric field
keeps its value, and the `Infinity` string keeps its infinity. -/
theorem C8_monetary_coercion_witness :
    jsToNumber (.str "N/A") = .nan ∧
    (numOr0 (.str "N/A") = .finite 0 ∧ numOr0 (.num 7) = .finite 7 ∧
     numOr0 (.str "Infinity") = .posInf ∧
     (safeAgent { id := "a1", name := "Alpha", wallet_address := "0xA",
                  balance := .undef, daily_spent := .str "N/A",
                  daily_remaining := .num 12,
                  created_at := "t0" }).balance =
       numOr0 ({ id := "a1", name := "Alpha", wallet_address := "0xA",
                 balance := .undef, daily_spent := .str "N/A",
                 daily_remaining := .num 12,
                 created_at := "t0" } : RawAgent).balance) :=
  ⟨by decide,
    by
      have h := C8_monetary_coercion
        { id := "a1", name := "Alpha", wallet_address := "0xA",
          balance := .undef, daily_spent := .str "N/A",
          daily_remaining := .num 12, created_at := "t0" }
        { transaction_id := "t", status := "APPROVED", vendor_paid := .num 1,
          tax_collected := .num 2, new_balance := .num 3, detail := "",
          timestamp := "ts", idempotency_key := "k" }
        (.str "N/A") 7 (by decide)
      exact ⟨h.2.2.2.2.2.2.1, h.2.2.2.2.2.2.2.2.2.1,
        h.2.2.2.2.2.2.2.2.2.2.1, h.1⟩⟩

/- ## C9 -/

/-- C9: the claim says the UI disables re-submission of a mutation action
while its request is outstanding.  The deposit action refutes it: its
button carries no `disabled` attribute and `handleDeposit` never touches
the `processing` flag, so while a request is outstanding the button stays
enabled and a second invocation sends another request under a fresh key. -/
theorem C9_counterexample :
    depositButtonDisabled true = false ∧
    (handleDeposit { baseState with processing := true } "a1" (some "100")
        "dep-2" (.netError none) none none).2.2 =
      some { wallet_address := "0xA", amount := 100,
             idempotency_key := some "deposit_dep-2" } ∧
    (handleDeposit { baseState with processing := true } "a1" (some "100")
        "dep-2" (.netError none) none none).1.processing = true := by decide

/-- C9 (amended): the payment form is guarded — its submit button is
disabled exactly while `processing` holds, the handler raises `processing`
before the request goes out and lowers it afterwards — whereas the deposit
button is never disabled and `handleDeposit` leaves `processing`
untouched, so only the payment action enforces one in-flight mutation. -/
theorem C9_payment_guard_deposit_unguarded :
    (∀ p : Bool, paymentSubmitDisabled p = p) ∧
    (∀ (s : DashState) (u : String) (t : DashState) (r : PaymentPayload),
       handlePaymentStart s u = .inflight t r → t.processing = true) ∧
    (∀ (s : DashState) (o : FetchOutcome) (rA : Option (List RawAgent))
       (rT : Option (List RawTx)),
       (handlePaymentFinish s o rA rT).processing = false) ∧
    (∀ p : Bool, depositButtonDisabled p = false) ∧
    (∀ (s : DashState) (aid : String) (pr : Option String) (u : String)
       (o : FetchOutcome) (rA : Option (List RawAgent)) (rT : Option (List RawTx)),
       (handleDeposit s aid pr u o rA rT).1.processing = s.processing) := by
  refine ⟨fun p => rfl, ?_, fun s o rA rT => rfl, fun p => rfl, ?_⟩
  · intro s u t r h
    have ht := (startInflight_spec _ _ _ _ h).1
    rw [ht]
  · intro s aid pr u o rA rT
    unfold handleDeposit
    cases hs : handleDepositStart s.agents aid pr u with
    | noop => rfl
    | alerted m => rfl
    | inflight amt req =>
      unfold handleDepositFinish
      cases o with
      | netError msg => rfl
      | response ok st body =>
        cases ok with
        | false => rfl
        | true =>
          exact (loadData_form_fields
            { s with
              success := some ("💵 Deposited $" ++ toFixed2 amt ++ " successfully!") }
            rA rT).2.2.2.2

/-- C9 witness: the amended theorem's guard facts at concrete inputs. -/
theorem C9_payment_guard_deposit_unguarded_witness :
    paymentSubmitDisabled true = true ∧
    ({ baseState with
        processing := true, error := none, success := none } : DashState).processing =
      true ∧
    depositButtonDisabled true = false :=
  ⟨C9_payment_guard_deposit_unguarded.1 true,
    C9_payment_guard_deposit_unguarded.2.1 baseState "u9"
      { baseState with processing := true, error := none, success := none }
      { wallet_address := "0xA", amount := 50, vendor := "OpenAI",
        idempotency_key := some "web_u9" }
      (by decide),
    C9_payment_guard_deposit_unguarded.2.2.2.1 true⟩

/- ## C10 -/

/-- C10: on any payment outcome other than a request that came back
`APPROVED`, the entered form fields (selected agent, amount, vendor) keep
their values; amount and vendor are cleared exactly on an `APPROVED`
response, with the selected agent kept even then. -/
theorem C10_form_fields_frame (s : DashState) (u : String) (o : FetchOutcome)
    (rA : Option (List RawAgent)) (rT : Option (List RawTx)) :
    (isApprovedOutcome o = false ∨ (handlePayment s u o rA rT).2 = none →
      (handlePayment s u o rA rT).1.amount = s.amount ∧
      (handlePayment s u o rA rT).1.vendor = s.vendor ∧
      (handlePayment s u o rA rT).1.selectedAgent = s.selectedAgent) ∧
    (∀ r : PaymentPayload, (handlePayment s u o rA rT).2 = some r →
      isApprovedOutcome o = true →
      (handlePayment s u o rA rT).1.amount = "" ∧
      (handlePayment s u o rA rT).1.vendor = "" ∧
      (handlePayment s u o rA rT).1.selectedAgent = s.selectedAgent) := by
  constructor
  · intro hcase
    cases hreq : (handlePayment s u o rA rT).2 with
    | none =>
      have hs := handlePayment_none _ _ _ _ _ hreq
      obtain ⟨m, hm⟩ := startRejected_spec _ _ _ hs
      rw [hm]
      exact ⟨rfl, rfl, rfl⟩
    | some r =>
      have h : isApprovedOutcome o = false := by
        rcases hcase with h | h
        · exact h
        · rw [hreq] at h; cases h
      obtain ⟨t, hs, heq⟩ := handlePayment_some _ _ _ _ _ _ hreq
      have ht := (startInflight_spec _ _ _ _ hs).1
      obtain ⟨m, hm⟩ := finish_not_approved t o rA rT h
      rw [heq, hm, ht]
      exact ⟨rfl, rfl, rfl⟩
  · intro r hreq happr
    obtain ⟨t, hs, heq⟩ := handlePayment_some _ _ _ _ _ _ hreq
    have ht := (startInflight_spec _ _ _ _ hs).1
    cases o with
    | netError msg => simp [isApprovedOutcome] at happr
    | response ok st body =>
      cases ok with
      | false => simp [isApprovedOutcome] at happr
      | true =>
        have hst : body.status = some "APPROVED" := by
          simpa [isApprovedOutcome] using happr
        rw [heq, finish_approved t st body rA rT hst]
        have hp := loadData_form_fields
          { t with
            success := some (approvedMsg (body.vendor_paid.getD 0) (body.tax_collected.getD 0)),
            amount := "", vendor := "" }
          rA rT
        refine ⟨by simpa using hp.1, by simpa using hp.2.1, ?_⟩
        exact hp.2.2.1.trans (by rw [ht])

/-- C10 witness: the approved scenario clears amount and vendor and keeps
the selected agent; a denied outcome keeps all three. -/
theorem C10_form_fields_frame_witness :
    ((handlePayment baseState "u10" (.response true 200 approvedBody)
        (some [refreshedRawA]) (some [])).2 =
      some { wallet_address := "0xA", amount := 50, vendor := "OpenAI",
             idempotency_key := some "web_u10" } ∧
     isApprovedOutcome (.response true 200 approvedBody) = true) ∧
    ((handlePayment baseState "u10" (.response true 200 approvedBody)
        (some [refreshedRawA]) (some [])).1.amount = "" ∧
     (handlePayment baseState "u10" (.response true 200 approvedBody)
        (some [refreshedRawA]) (some [])).1.vendor = "" ∧
     (handlePayment baseState "u10" (.response true 200 approvedBody)
        (some [refreshedRawA]) (some [])).1.selectedAgent = baseState.selectedAgent) :=
  ⟨⟨by decide, by decide⟩,
    (C10_form_fields_frame baseState "u10" (.response true 200 approvedBody)
        (some [refreshedRawA]) (some [])).2
      { wallet_address := "0xA", amount := 50, vendor := "OpenAI",
        idempotency_key := some "web_u10" }
      (by decide) (by decide)⟩
